import Mathlib

/-!
# Formal model of the PayFast ITN payment-intake pipeline

A shallow embedding, in Lean 4, of the core of the `sss---main` repository:
the PayFast signature verifier (`validatePayFastSignature`, received-order
variant), the server-side request validator (`validatePayFastRequest`),
the Neon/PostgreSQL-backed pending/paid stores (`database.js`), and the ITN
orchestrator (`payfast-itn.js`, database-backed variant).

Conventions of the embedding:
* A decoded notification payload (`Payload`) is an ordered association list of
  string keys to string values, mirroring the ordered object produced from the
  URL-encoded form body; JavaScript object keys are unique.
* timestamps are integers (abstract instants); `NOW()` is passed in as `now`.
* JavaScript numbers appearing in the pipeline are modelled by `JsNum`
  (an exact rational, infinities, or NaN); binary-float rounding is abstracted
  away because no claim depends on the rounded value, only on NaN-ness and
  SQL-null-ness.
* the MD5 digest is an opaque collaborator (`crypto` library, outside the
  repository); definitions are parametrised by an arbitrary hex-digest
  function `md5hex : String → String`, and theorems hold for every such
  function.
* external effects (the confirmation HTTP call, email sends, database
  failures) are modelled by oracle fields of `Env`; store reads/writes and
  email sends are recorded in an event trace.
-/

namespace SSS

/-- An ordered string-keyed field map: a decoded form body / JSON object with
string values, in insertion order. -/
abbrev Payload := List (String × String)

/-- Form data attached to a submission.  The real store keeps arbitrary JSONB;
every field the core ever reads out of it is a string, so an ordered
string-to-string map is a faithful model for the consumed fragment while the
rest rides along opaquely as extra entries. -/
abbrev FormData := List (String × String)

/-- JavaScript property lookup on an ordered object: the value at `k`, if
present.  Keys of a decoded form body are unique, so first-match lookup agrees
with object lookup. -/
def lookupField (data : Payload) (k : String) : Option String :=
  (data.find? (fun p => p.1 = k)).map (fun p => p.2)

/-- JavaScript `x || ''` on an optional string-valued property: a missing
property yields the empty string (and an empty string stays empty). -/
def jsOrEmpty (v : Option String) : String := v.getD ""

/-- JavaScript truthiness on an optional string-valued property:
`undefined`, `null` and `""` are falsy.  `truthyStr v = some s` exactly when
the property is present with a non-empty value. -/
def truthyStr : Option String → Option String
  | some s => if s = "" then none else some s
  | none => none

/-! ## `encodeURIComponent` and the PayFast value encoding -/

/-- Characters `encodeURIComponent` leaves unescaped:
`A–Z a–z 0–9 - _ . ! ~ * ' ( )`. -/
def isUnreservedURI (c : Char) : Bool :=
  c.isAlpha || c.isDigit ||
  c = '-' || c = '_' || c = '.' || c = '!' || c = '~' || c = '*' ||
  c = Char.ofNat 39 || c = '(' || c = ')'

/-- UTF-8 bytes of a character, as natural numbers below 256. -/
def utf8Bytes (c : Char) : List Nat :=
  let n := c.toNat
  if n < 128 then [n]
  else if n < 2048 then [192 + n / 64, 128 + n % 64]
  else if n < 65536 then [224 + n / 4096, 128 + (n / 64) % 64, 128 + n % 64]
  else [240 + n / 262144, 128 + (n / 4096) % 64, 128 + (n / 64) % 64, 128 + n % 64]

/-- Upper-case hexadecimal digit for a value below 16. -/
def hexDigitUpper (n : Nat) : Char :=
  if n < 10 then Char.ofNat (48 + n) else Char.ofNat (55 + n)

/-- Percent-escape of a single byte, e.g. `32 ↦ "%20"`. -/
def pctByte (b : Nat) : List Char :=
  ['%', hexDigitUpper (b / 16), hexDigitUpper (b % 16)]

/-- JavaScript `encodeURIComponent`: unreserved characters pass through,
every other character is percent-escaped byte-wise (UTF-8, upper-case hex). -/
def encodeURIComponent (s : String) : String :=
  String.mk (s.data.flatMap fun c =>
    if isUnreservedURI c then [c] else (utf8Bytes c).flatMap pctByte)

/-- `.replace(/%20/g, '+')`: left-to-right replacement of every literal `%20`
by `+`. -/
def replacePct20 : List Char → List Char
  | '%' :: '2' :: '0' :: rest => '+' :: replacePct20 rest
  | c :: rest => c :: replacePct20 rest
  | [] => []

/-- The PayFast value encoding used throughout the source:
`encodeURIComponent(value).replace(/%20/g, '+')`. -/
def pfEncode (v : String) : String :=
  String.mk (replacePct20 (encodeURIComponent v).data)

/-- ASCII lower-casing, modelling `String.prototype.toLowerCase` on the hex
digest / signature domain. -/
def strToLower (s : String) : String :=
  String.mk (s.data.map fun c =>
    if 'A' ≤ c && c ≤ 'Z' then Char.ofNat (c.toNat + 32) else c)

/-! ## Signature verifier (`validatePayFastSignature`, received-order variant)

Source: `netlify/functions/utils/payfast-validator` (the order-preserving
iteration of the validator, the one the spec designates as authoritative). -/

/-- The `paramParts` loop: walk the payload entries in received order,
stop at the `signature` field, skip empty values, emit `key=encodedValue`.
In a decoded form body every value is a string, so the source's
`null`/`undefined` skips cannot fire and skipping reduces to the empty-string
test. -/
def pfParamParts : Payload → List String
  | [] => []
  | (k, v) :: rest =>
    if k = "signature" then []
    else if v = "" then pfParamParts rest
    else (k ++ "=" ++ pfEncode v) :: pfParamParts rest

/-- The string handed to MD5: the joined parameter parts, with
`&passphrase=<encoded secret>` appended when the passphrase is truthy. -/
def pfStringToHash (data : Payload) (passphrase : String) : String :=
  let paramString := String.intercalate "&" (pfParamParts data)
  if passphrase ≠ "" then
    paramString ++ "&passphrase=" ++ pfEncode passphrase
  else paramString

/-- `validatePayFastSignature(data, passphrase)`: recompute the digest over
the canonical string and compare, case-insensitively, with the payload's
`signature` field (`(data.signature || '').toLowerCase()`).
`md5hex` is the `crypto` MD5-hex collaborator. -/
def validatePayFastSignature (md5hex : String → String) (data : Payload)
    (passphrase : String) : Bool :=
  let calculatedSignature := md5hex (pfStringToHash data passphrase)
  let receivedSignature := strToLower (jsOrEmpty (lookupField data "signature"))
  strToLower calculatedSignature = receivedSignature

/-- Canonical string as the specification words it: iterate fields in received
order, stopping at the signature field, skipping empty-valued fields,
URL-encoding each remaining value with `%20` replaced by `+`, joining the
`key=encodedValue` pairs with `&`, and appending the encoded passphrase when
it is non-empty.  Written from the spec, to be compared with the source-side
`pfStringToHash`. -/
def canonicalStringSpec (data : Payload) (passphrase : String) : String :=
  let fields := data.takeWhile (fun p => p.1 ≠ "signature")
  let parts := (fields.filter (fun p => p.2 ≠ "")).map
    (fun p => p.1 ++ "=" ++ pfEncode p.2)
  let joined := String.intercalate "&" parts
  if passphrase ≠ "" then
    joined ++ "&passphrase=" ++ pfEncode passphrase
  else joined

/-! ## JavaScript numbers and `parseFloat` -/

/-- A JavaScript number as it matters to this pipeline: an exact rational,
an infinity, or `NaN`.  (Binary-float rounding is abstracted: no claim
depends on the rounded value.) -/
inductive JsNum where
  | num (q : ℚ)
  | inf
  | negInf
  | nan
deriving DecidableEq, Repr

/-- Whitespace skipped by `parseFloat` (the ASCII fragment). -/
def isWsJS (c : Char) : Bool :=
  c = ' ' || c = '\t' || c = '\n' || c = '\r' || c.toNat = 11 || c.toNat = 12

/-- Decimal digit run → natural number. -/
def digitsToNat (ds : List Char) : Nat :=
  ds.foldl (fun a c => a * 10 + (c.toNat - 48)) 0

/-- `10 ^ z` over the rationals, for an integer exponent. -/
def ratPow10 (z : Int) : ℚ :=
  if 0 ≤ z then (10 : ℚ) ^ z.toNat else ((10 : ℚ) ^ (-z).toNat)⁻¹

/-- JavaScript `parseFloat`: skip leading whitespace, optional sign,
`Infinity` literal or a decimal mantissa with optional fraction and exponent;
trailing garbage is ignored; no parsable prefix gives `NaN`. -/
def parseFloatJS (s : String) : JsNum :=
  let cs := s.data.dropWhile isWsJS
  let signAndRest : Int × List Char :=
    match cs with
    | '-' :: r => (-1, r)
    | '+' :: r => (1, r)
    | _ => (1, cs)
  let sign := signAndRest.1
  let cs := signAndRest.2
  if ['I', 'n', 'f', 'i', 'n', 'i', 't', 'y'].isPrefixOf cs then
    if sign = 1 then JsNum.inf else JsNum.negInf
  else
    let intSplit := cs.span (fun c => c.isDigit)
    let fracSplit : List Char × List Char :=
      match intSplit.2 with
      | '.' :: r => r.span (fun c => c.isDigit)
      | _ => ([], intSplit.2)
    if intSplit.1 = [] ∧ fracSplit.1 = [] then JsNum.nan
    else
      let mant : Int :=
        sign * (digitsToNat intSplit.1 * 10 ^ fracSplit.1.length +
          digitsToNat fracSplit.1)
      let exp10 : Int :=
        match fracSplit.2 with
        | e :: r =>
          if e = 'e' ∨ e = 'E' then
            let esplit : Int × List Char :=
              match r with
              | '-' :: rr => (-1, rr)
              | '+' :: rr => (1, rr)
              | _ => (1, r)
            let edig := esplit.2.takeWhile (fun c => c.isDigit)
            if edig = [] then 0 else esplit.1 * digitsToNat edig
          else 0
        | [] => 0
      JsNum.num ((mant : ℚ) * ratPow10 (exp10 - fracSplit.1.length))

/-! ## Data model: the two stores

`database.js`: table `pending_form_data` (temporary, TTL 2 hours) and table
`submissions` (paid customers only), each with a unique key `submission_id`.
A `World` carries both tables as ordered association lists with unique keys
(the unique index); `now` stands for SQL `NOW()`. -/

/-- A `pending_form_data` row (minus the serial `id`). -/
structure PendingRecord where
  form_data : FormData
  created_at : Int
  expires_at : Int
deriving DecidableEq, Repr

/-- A `submissions` row (minus the serial `id`); `none` is SQL `NULL`. -/
structure PaidRow where
  business_name : Option String
  owner_first_name : Option String
  owner_last_name : Option String
  email : Option String
  phone : Option String
  industry : Option String
  payment_status : String
  payfast_payment_id : Option String
  subscription_token : Option String
  amount_gross : Option JsNum
  amount_net : Option JsNum
  form_data : FormData
  payment_data : Payload
  created_at : Int
  updated_at : Int
deriving DecidableEq, Repr

/-- The two tables. -/
structure World where
  pending : List (String × PendingRecord)
  paid : List (String × PaidRow)
deriving DecidableEq, Repr

/-- Unique-key lookup in the pending table. -/
def lookupPending (w : World) (id : String) : Option PendingRecord :=
  (w.pending.find? (fun p => p.1 = id)).map (fun p => p.2)

/-- Unique-key lookup in the paid table. -/
def lookupPaid (w : World) (id : String) : Option PaidRow :=
  (w.paid.find? (fun p => p.1 = id)).map (fun p => p.2)

/-- Number of paid rows carrying a given submission id. -/
def countPaid (w : World) (id : String) : Nat :=
  (w.paid.filter (fun p => p.1 = id)).length

/-- `getPendingFormData(submissionId, ignoreExpiry = false)`: `null` for a
falsy id; otherwise the unique row, subject to `expires_at > NOW()` unless
expiry is ignored. -/
def getPendingFormData (now : Int) (w : World) (submissionId : String)
    (ignoreExpiry : Bool) : Option PendingRecord :=
  if submissionId = "" then none
  else
    match lookupPending w submissionId with
    | none => none
    | some r => if ignoreExpiry then some r
        else if now < r.expires_at then some r else none

/-- `deletePendingFormData(submissionId)`: row deletion; `true` when a row
was removed. -/
def deletePendingFormData (w : World) (submissionId : String) : World × Bool :=
  if submissionId = "" then (w, false)
  else ({ w with pending := w.pending.filter (fun p => p.1 ≠ submissionId) },
    (lookupPending w submissionId).isSome)

/-- `submissionExists(submissionId)`: the idempotency gate,
`SELECT 1 FROM submissions WHERE submission_id = $1`. -/
def submissionExists (w : World) (submissionId : String) : Bool :=
  if submissionId = "" then false else (lookupPaid w submissionId).isSome

/-- The `coreFields`-derived row `createPaidSubmission` sends with `INSERT`:
scalar extracts from the form data (`x || null`), payment metadata from the
notification payload, `payment_status = 'COMPLETE'`, and both JSONB blobs;
`created_at = updated_at = NOW()`. -/
def mkInsertRow (now : Int) (formData : FormData) (paymentData : Payload) :
    PaidRow where
  business_name := truthyStr (lookupField formData "businessName")
  owner_first_name := truthyStr (lookupField formData "ownerFirstName")
  owner_last_name := truthyStr (lookupField formData "ownerLastName")
  email := truthyStr (lookupField formData "businessEmail")
  phone := truthyStr (lookupField formData "businessPhone")
  industry := truthyStr (lookupField formData "industry")
  payment_status := "COMPLETE"
  payfast_payment_id :=
    (truthyStr (lookupField paymentData "pf_payment_id")).orElse
      (fun _ => truthyStr (lookupField paymentData "pfPaymentId"))
  subscription_token := truthyStr (lookupField paymentData "token")
  amount_gross := (truthyStr (lookupField paymentData "amount_gross")).map parseFloatJS
  amount_net := (truthyStr (lookupField paymentData "amount_net")).map parseFloatJS
  form_data := formData
  payment_data := paymentData
  created_at := now
  updated_at := now

/-- The `ON CONFLICT (submission_id) DO UPDATE` row: `payment_status` is set
to `'COMPLETE'`, the four payment-metadata columns merge by
`COALESCE(EXCLUDED.x, submissions.x)`, `payment_data` takes the excluded
value (the bound parameter `JSON.stringify(paymentData || {})` is never SQL
`NULL`), `updated_at = NOW()`; every other column keeps its stored value. -/
def mergeOnConflict (now : Int) (old new : PaidRow) : PaidRow :=
  { old with
    payment_status := "COMPLETE"
    payfast_payment_id := new.payfast_payment_id.orElse (fun _ => old.payfast_payment_id)
    subscription_token := new.subscription_token.orElse (fun _ => old.subscription_token)
    amount_gross := new.amount_gross.orElse (fun _ => old.amount_gross)
    amount_net := new.amount_net.orElse (fun _ => old.amount_net)
    payment_data := new.payment_data
    updated_at := now }

/-- Replace the row keyed `id` in an association list. -/
def updateRow (rows : List (String × PaidRow)) (id : String) (r : PaidRow) :
    List (String × PaidRow) :=
  rows.map (fun p => if p.1 = id then (id, r) else p)

/-- `createPaidSubmission({submissionId, formData, paymentData})`: throws on a
falsy `submissionId` (modelled by `Except.error`), otherwise upserts into
`submissions` keyed by `submission_id`. -/
def createPaidSubmission (now : Int) (submissionId : String)
    (formData : FormData) (paymentData : Payload) (w : World) :
    Except String World :=
  if submissionId = "" then Except.error "submissionId is required"
  else
    let row := mkInsertRow now formData paymentData
    match lookupPaid w submissionId with
    | none => Except.ok { w with paid := w.paid ++ [(submissionId, row)] }
    | some old =>
        Except.ok { w with
          paid := updateRow w.paid submissionId (mergeOnConflict now old row) }

/-! ## Server-side request validation (`validatePayFastRequest`)

The confirmation HTTP call (`confirmWithPayFast`) is a collaborator: its
outcome is an input.  `ok b` models a response received, `b` true exactly when
the body trimmed equals the `'VALID'` success token; `thrown` models a network
error or the 10 s timeout (a rejected promise). -/

/-- Outcome of the `confirmWithPayFast` POST to the validation endpoint. -/
inductive ConfirmOutcome where
  | ok (valid : Bool)
  | thrown
deriving DecidableEq, Repr

/-- The `{valid, error?}` object returned by `validatePayFastRequest`. -/
structure ValidationResult where
  valid : Bool
  error : Option String
deriving DecidableEq, Repr

/-- `parseFloat(data.amount_gross || 0)`: a falsy `amount_gross` falls back to
the number `0`; otherwise the string is parsed. -/
def amountGrossNum (data : Payload) : JsNum :=
  match truthyStr (lookupField data "amount_gross") with
  | none => JsNum.num 0
  | some s => parseFloatJS s

/-- `validatePayFastRequest(data, merchantId)`: merchant-id mismatch and a
NaN amount are hard failures; the server confirmation makes the result
invalid only when it *resolves* to false — a thrown error is swallowed by the
surrounding `try`/`catch` ("signature validation is primary"). -/
def validatePayFastRequest (data : Payload) (merchantId : String)
    (confirm : ConfirmOutcome) : ValidationResult :=
  if lookupField data "merchant_id" ≠ some merchantId then
    { valid := false
      error := some ("Merchant ID mismatch: expected " ++ merchantId ++
        ", got " ++ ((lookupField data "merchant_id").getD "undefined")) }
  else if amountGrossNum data = JsNum.nan then
    { valid := false, error := some "Invalid amount format" }
  else
    match confirm with
    | ConfirmOutcome.ok false =>
        { valid := false, error := some "PayFast server validation failed" }
    | _ => { valid := true, error := none }

/-! ## The ITN orchestrator (`payfast-itn.js`, database-backed variant) -/

/-- The per-mode credentials resolved by `getPayFastCredentials`. -/
structure Config where
  merchantId : String
  passphrase : String
deriving DecidableEq, Repr

/-- Collaborator oracles for one handler invocation: the MD5 collaborator,
the clock, the configuration outcome (`none` = `getPayFastCredentials`
threw), the confirmation-call outcome, and whether each fallible side effect
(database write, pending-row delete, owner / customer email send) throws. -/
structure Env where
  md5hex : String → String
  now : Int
  config : Option Config
  confirm : ConfirmOutcome
  dbCreateFails : Bool
  deleteFails : Bool
  ownerEmailFails : Bool
  customerEmailFails : Bool

/-- Store accesses and notification attempts, in program order.  The
confirmation HTTP call and `initializeSchema` (DDL only) touch no store row
and are not traced. -/
inductive Ev where
  | checkExists (id : String)
  | getPending (id : String)
  | createPaid (id : String)
  | emailOwner (id : String)
  | emailCustomer (email : String)
  | deletePending (id : String)
deriving DecidableEq, Repr

/-- The JSON body of the handler's response, structured. -/
inductive RespBody where
  | methodNotAllowed
  | serverConfigError
  | invalidSignature
  | validationFailed (error : String)
  | notComplete (status : Option String)
  | missingSubmissionId
  | duplicate (id : String)
  | fallbackProcessed (id : String)
  | processed (id : String) (databaseSaved ownerEmailSent customerEmailSent : Bool)
  | unexpectedError
deriving DecidableEq, Repr

/-- One handler invocation: HTTP status, response body, resulting stores,
event trace. -/
structure HandlerOutcome where
  statusCode : Nat
  body : RespBody
  world : World
  events : List Ev
deriving DecidableEq, Repr

/-- The minimal form data synthesized in the recovery branch (step 11's
not-found fallback). -/
def fallbackFormData (submissionId : String) (itnData : Payload) : FormData :=
  [("submissionId", submissionId),
   ("businessName", jsOrEmpty (lookupField itnData "custom_str2")),
   ("ownerFirstName", jsOrEmpty (lookupField itnData "name_first")),
   ("ownerLastName", jsOrEmpty (lookupField itnData "name_last")),
   ("businessEmail", jsOrEmpty (lookupField itnData "email_address")),
   ("_note", "INCOMPLETE DATA - Original form data not found in pending table")]

/-- The ITN handler, steps 1–16 of the source, over an already-decoded
payload (step 3's `parseUrlEncodedData` produces the ordered field map). -/
def handler (env : Env) (w : World) (httpMethod : String) (itnData : Payload) :
    HandlerOutcome :=
  -- Step 1: only POST
  if httpMethod ≠ "POST" then ⟨405, RespBody.methodNotAllowed, w, []⟩
  else
    -- Step 2: configuration
    match env.config with
    | none => ⟨200, RespBody.serverConfigError, w, []⟩
    | some cfg =>
      -- Step 4: signature gate
      if validatePayFastSignature env.md5hex itnData cfg.passphrase = false then
        ⟨200, RespBody.invalidSignature, w, []⟩
      else
        -- Step 5 (expected-amount comparison) only logs; nothing observable.
        -- Step 6: server-side validation gate
        let validationResult :=
          validatePayFastRequest itnData cfg.merchantId env.confirm
        if validationResult.valid = false then
          ⟨200, RespBody.validationFailed (jsOrEmpty validationResult.error), w, []⟩
        else
          -- Step 7: status branch
          if lookupField itnData "payment_status" ≠ some "COMPLETE" then
            ⟨200, RespBody.notComplete (lookupField itnData "payment_status"), w, []⟩
          else
            -- Step 8: submission id from custom_str1
            let submissionId := jsOrEmpty (lookupField itnData "custom_str1")
            if submissionId = "" then
              ⟨200, RespBody.missingSubmissionId, w, []⟩
            -- Step 9: idempotency gate
            else if submissionExists w submissionId then
              ⟨200, RespBody.duplicate submissionId, w, [Ev.checkExists submissionId]⟩
            else
              -- Step 10: initializeSchema (DDL only).  Step 11: pending lookup
              match getPendingFormData env.now w submissionId false with
              | none =>
                -- Recovery branch: synthesize minimal form data; this
                -- `createPaidSubmission` await is NOT wrapped in try/catch,
                -- so a throw reaches the top-level catch (generic 200 error).
                let evs := [Ev.checkExists submissionId,
                  Ev.getPending submissionId, Ev.createPaid submissionId]
                let createResult :=
                  if env.dbCreateFails then Except.error "database error"
                  else createPaidSubmission env.now submissionId
                    (fallbackFormData submissionId itnData) itnData w
                match createResult with
                | Except.error _ => ⟨200, RespBody.unexpectedError, w, evs⟩
                | Except.ok w1 =>
                    ⟨200, RespBody.fallbackProcessed submissionId, w1, evs⟩
              | some pendingRecord =>
                let fullFormData := pendingRecord.form_data
                -- Step 12: promote (non-blocking: its try/catch keeps going)
                let createResult :=
                  if env.dbCreateFails then Except.error "database error"
                  else createPaidSubmission env.now submissionId fullFormData
                    itnData w
                let w1 := match createResult with
                  | Except.error _ => w
                  | Except.ok w' => w'
                let databaseSaveSuccess := match createResult with
                  | Except.error _ => false
                  | Except.ok _ => true
                -- Step 13: owner email (non-blocking)
                let ownerEmailSent := !env.ownerEmailFails
                -- Step 14: customer email, only for a truthy businessEmail
                let customerEmail := truthyStr (lookupField fullFormData "businessEmail")
                let customerEmailSent := customerEmail.isSome && !env.customerEmailFails
                -- Step 15: cleanup (non-blocking)
                let w2 := if env.deleteFails then w1
                  else (deletePendingFormData w1 submissionId).1
                let evs := [Ev.checkExists submissionId,
                    Ev.getPending submissionId, Ev.createPaid submissionId,
                    Ev.emailOwner submissionId] ++
                  (match customerEmail with
                    | some e => [Ev.emailCustomer e]
                    | none => []) ++
                  [Ev.deletePending submissionId]
                ⟨200, RespBody.processed submissionId databaseSaveSuccess
                  ownerEmailSent customerEmailSent, w2, evs⟩

/-! ## Helper lemmas -/

theorem jsOrEmpty_some (s : String) : jsOrEmpty (some s) = s := rfl

/-- The source's param-parts loop computes exactly the take-while / filter /
map pipeline the specification describes. -/
theorem pfParamParts_eq_spec (data : Payload) :
    pfParamParts data =
      ((data.takeWhile (fun p => p.1 ≠ "signature")).filter
        (fun p => p.2 ≠ "")).map (fun p => p.1 ++ "=" ++ pfEncode p.2) := by
  induction data with
  | nil => rfl
  | cons hd tl ih =>
    obtain ⟨k, v⟩ := hd
    by_cases hk : k = "signature"
    · simp [pfParamParts, hk, List.takeWhile]
    · by_cases hv : v = ""
      · simp [pfParamParts, hk, hv, List.takeWhile, List.filter, ih]
      · simp [pfParamParts, hk, hv, List.takeWhile, List.filter, ih]

/-- The string the source hashes is the specification's canonical string. -/
theorem pfStringToHash_eq_canonical (data : Payload) (passphrase : String) :
    pfStringToHash data passphrase = canonicalStringSpec data passphrase := by
  unfold pfStringToHash canonicalStringSpec
  rw [pfParamParts_eq_spec]

theorem find?_append_of_none {α} {p : α → Bool} {l₁ l₂ : List α}
    (h : l₁.find? p = none) : (l₁ ++ l₂).find? p = l₂.find? p := by
  induction l₁ with
  | nil => rfl
  | cons hd tl ih =>
    rcases hp : p hd with _ | _
    · rw [List.cons_append, List.find?_cons_of_neg _ (by simp [hp])]
      exact ih (by rw [List.find?_cons_of_neg _ (by simp [hp])] at h; exact h)
    · rw [List.find?_cons_of_pos _ hp] at h; exact absurd h (by simp)

theorem find?_updateRow_self (rows : List (String × PaidRow)) (id : String)
    (r : PaidRow) :
    (updateRow rows id r).find? (fun p => p.1 = id) =
      (rows.find? (fun p => p.1 = id)).map (fun _ => (id, r)) := by
  induction rows with
  | nil => rfl
  | cons hd tl ih =>
    by_cases h : hd.1 = id
    · simp [updateRow, List.find?_cons_of_pos, h]
    · rw [updateRow, List.map_cons, if_neg h,
        List.find?_cons_of_neg _ (by simp [h]),
        List.find?_cons_of_neg _ (by simp [h])]
      exact ih

theorem find?_updateRow_other (rows : List (String × PaidRow))
    (id id' : String) (r : PaidRow) (h : id' ≠ id) :
    (updateRow rows id r).find? (fun p => p.1 = id') =
      rows.find? (fun p => p.1 = id') := by
  induction rows with
  | nil => rfl
  | cons hd tl ih =>
    by_cases hh : hd.1 = id
    · rw [updateRow, List.map_cons, if_pos hh,
        List.find?_cons_of_neg _ (by simp [Ne.symm h]),
        List.find?_cons_of_neg _ (by simp [hh, Ne.symm h])]
      exact ih
    · by_cases hh' : hd.1 = id'
      · rw [updateRow, List.map_cons, if_neg hh,
          List.find?_cons_of_pos _ (by simp [hh']),
          List.find?_cons_of_pos _ (by simp [hh'])]
      · rw [updateRow, List.map_cons, if_neg hh,
          List.find?_cons_of_neg _ (by simp [hh']),
          List.find?_cons_of_neg _ (by simp [hh'])]
        exact ih

theorem filter_eq_nil_of_find?_none {α} {p : α → Bool} {l : List α}
    (h : l.find? p = none) : l.filter p = [] := by
  rw [List.find?_eq_none] at h
  rw [List.filter_eq_nil_iff]
  exact fun a ha => by simpa using h a ha

/-! ## Claim theorems -/

/-- **C1.** `validatePayFastSignature` returns true if and only if the
lowercase MD5 hex digest of the canonical string — payload fields in received
order up to the `signature` terminator, empty values skipped, each value
URL-encoded with literal `%20` replaced by `+`, joined as `key=value` pairs
with `&`, with `&passphrase=<encoded secret>` appended when the passphrase is
non-empty — equals the payload's `signature` field compared
case-insensitively.  Quantified over every digest collaborator `md5hex`. -/
theorem claim_C1_signature_iff_canonical_digest
    (md5hex : String → String) (data : Payload) (passphrase : String) :
    validatePayFastSignature md5hex data passphrase = true ↔
      strToLower (md5hex (canonicalStringSpec data passphrase)) =
        strToLower (jsOrEmpty (lookupField data "signature")) := by
  unfold validatePayFastSignature
  rw [pfStringToHash_eq_canonical]
  simp

/-- **C9.** A stored pending record whose `expires_at` lies strictly in the
past is not returned by `getPendingFormData` in default mode
(`ignoreExpiry = false`) but is returned with `ignoreExpiry = true`. -/
theorem claim_C9_expired_pending_hidden_unless_overridden
    (now : Int) (w : World) (id : String) (rec : PendingRecord)
    (hid : id ≠ "")
    (hlook : lookupPending w id = some rec)
    (hexp : rec.expires_at < now) :
    getPendingFormData now w id false = none ∧
    getPendingFormData now w id true = some rec := by
  constructor
  · simp [getPendingFormData, hid, hlook, show ¬ now < rec.expires_at by omega]
  · simp [getPendingFormData, hid, hlook]

/-- Witness for C9 at a concrete store: a record expired at instant 50,
read at instant 100. -/
theorem claim_C9_witness :
    getPendingFormData 100
      ⟨[("SSS-20260101-ABC123", ⟨[("businessName", "Acme")], 40, 50⟩)], []⟩
      "SSS-20260101-ABC123" false = none ∧
    getPendingFormData 100
      ⟨[("SSS-20260101-ABC123", ⟨[("businessName", "Acme")], 40, 50⟩)], []⟩
      "SSS-20260101-ABC123" true = some ⟨[("businessName", "Acme")], 40, 50⟩ :=
  claim_C9_expired_pending_hidden_unless_overridden 100 _ _ _
    (by decide) rfl (by decide)

/-- **C8.** When `createPaidSubmission` hits an existing row for the
submission id, the conflict update changes only the payment-metadata columns
— payment id, subscription token, gross/net amounts, raw payment payload and
`updated_at`, each (except the always-present payment payload) merged by
keep-existing-value-if-new-value-is-null — and never overwrites the stored
`form_data`, the extracted scalar columns, `created_at`, the row's COMPLETE
payment status, any other row, or the pending table. -/
theorem claim_C8_conflict_update_frame
    (now : Int) (id : String) (fd : FormData) (pd : Payload) (w : World)
    (old : PaidRow) (hid : id ≠ "") (hold : lookupPaid w id = some old) :
    ∃ w' r, createPaidSubmission now id fd pd w = Except.ok w' ∧
      lookupPaid w' id = some r ∧
      r.form_data = old.form_data ∧
      r.business_name = old.business_name ∧
      r.owner_first_name = old.owner_first_name ∧
      r.owner_last_name = old.owner_last_name ∧
      r.email = old.email ∧
      r.phone = old.phone ∧
      r.industry = old.industry ∧
      r.created_at = old.created_at ∧
      r.payment_status = "COMPLETE" ∧
      (old.payment_status = "COMPLETE" → r.payment_status = old.payment_status) ∧
      r.payfast_payment_id =
        ((mkInsertRow now fd pd).payfast_payment_id).orElse
          (fun _ => old.payfast_payment_id) ∧
      r.subscription_token =
        ((mkInsertRow now fd pd).subscription_token).orElse
          (fun _ => old.subscription_token) ∧
      r.amount_gross =
        ((mkInsertRow now fd pd).amount_gross).orElse
          (fun _ => old.amount_gross) ∧
      r.amount_net =
        ((mkInsertRow now fd pd).amount_net).orElse
          (fun _ => old.amount_net) ∧
      r.payment_data = pd ∧
      r.updated_at = now ∧
      (∀ id', id' ≠ id → lookupPaid w' id' = lookupPaid w id') ∧
      w'.pending = w.pending := by
  refine ⟨⟨w.pending, updateRow w.paid id
      (mergeOnConflict now old (mkInsertRow now fd pd))⟩,
    mergeOnConflict now old (mkInsertRow now fd pd), ?_, ?_, ?_⟩
  · unfold createPaidSubmission
    rw [if_neg hid, hold]
  · unfold lookupPaid at hold ⊢
    rw [find?_updateRow_self]
    obtain ⟨p, hp, -⟩ := Option.map_eq_some'.mp hold
    rw [hp]; rfl
  · refine ⟨rfl, rfl, rfl, rfl, rfl, rfl, rfl, rfl, rfl,
      fun h => by rw [mergeOnConflict, h], rfl, rfl, rfl, rfl, rfl, rfl,
      fun id' h => ?_, rfl⟩
    unfold lookupPaid
    rw [find?_updateRow_other _ _ _ _ h]

/-- Witness for C8: a second notification for an id that already has a row;
the stored form data and scalar columns survive, the metadata merges. -/
theorem claim_C8_witness :
    ∃ w' r, createPaidSubmission 200 "SSS-1"
        [("businessName", "Other")] [("pf_payment_id", "99"), ("token", "")]
        ⟨[], [("SSS-1",
          { business_name := some "Acme", owner_first_name := some "Jo",
            owner_last_name := none, email := some "jo@x.com", phone := none,
            industry := none, payment_status := "COMPLETE",
            payfast_payment_id := some "12", subscription_token := some "tokA",
            amount_gross := none, amount_net := none,
            form_data := [("businessName", "Acme")], payment_data := [],
            created_at := 100, updated_at := 100 })]⟩ = Except.ok w' ∧
      lookupPaid w' "SSS-1" = some r ∧
      r.form_data = [("businessName", "Acme")] ∧
      r.business_name = some "Acme" ∧
      r.owner_first_name = some "Jo" ∧
      r.owner_last_name = none ∧
      r.email = some "jo@x.com" ∧
      r.phone = none ∧
      r.industry = none ∧
      r.created_at = 100 ∧
      r.payment_status = "COMPLETE" ∧
      ("COMPLETE" = "COMPLETE" → r.payment_status = "COMPLETE") ∧
      r.payfast_payment_id = some "99" ∧
      r.subscription_token = some "tokA" ∧
      r.amount_gross = none ∧
      r.amount_net = none ∧
      r.payment_data = [("pf_payment_id", "99"), ("token", "")] ∧
      r.updated_at = 200 ∧
      (∀ id', id' ≠ "SSS-1" →
        lookupPaid w' id' = lookupPaid ⟨[], [("SSS-1",
          { business_name := some "Acme", owner_first_name := some "Jo",
            owner_last_name := none, email := some "jo@x.com", phone := none,
            industry := none, payment_status := "COMPLETE",
            payfast_payment_id := some "12", subscription_token := some "tokA",
            amount_gross := none, amount_net := none,
            form_data := [("businessName", "Acme")], payment_data := [],
            created_at := 100, updated_at := 100 })]⟩ id') ∧
      w'.pending = [] := by
  have h := claim_C8_conflict_update_frame 200 "SSS-1"
    [("businessName", "Other")] [("pf_payment_id", "99"), ("token", "")]
    ⟨[], [("SSS-1",
      { business_name := some "Acme", owner_first_name := some "Jo",
        owner_last_name := none, email := some "jo@x.com", phone := none,
        industry := none, payment_status := "COMPLETE",
        payfast_payment_id := some "12", subscription_token := some "tokA",
        amount_gross := none, amount_net := none,
        form_data := [("businessName", "Acme")], payment_data := [],
        created_at := 100, updated_at := 100 })]⟩
    _ (by decide) rfl
  obtain ⟨w', r, h1, h2, h3, h4, h5, h6, h7, h8, h9, h10, h11, h12, h13,
    h14, h15, h16, h17, h18, h19, h20⟩ := h
  exact ⟨w', r, h1, h2, h3, by rw [h4], by rw [h5], by rw [h6], by rw [h7],
    by rw [h8], by rw [h9], by rw [h10], h11, fun _ => h11,
    by rw [h13]; rfl, by rw [h14]; rfl, by rw [h15]; rfl, by rw [h16]; rfl,
    h17, h18, h19, h20⟩

/-- **C4.** A notification whose signature does not verify is rejected
before any storage or notification step: the response is the
invalid-signature acknowledgment, both stores are untouched, and the event
trace is empty — no store read or write, no email attempt. -/
theorem claim_C4_invalid_signature_rejects_before_any_store
    (env : Env) (w : World) (itn : Payload) (cfg : Config)
    (hcfg : env.config = some cfg)
    (hsig : validatePayFastSignature env.md5hex itn cfg.passphrase = false) :
    handler env w "POST" itn = ⟨200, RespBody.invalidSignature, w, []⟩ := by
  unfold handler
  rw [if_neg (by simp), hcfg]
  simp [hsig]

/-- Witness for C4: a tampered signature against a constant digest
collaborator. -/
theorem claim_C4_witness :
    handler ⟨fun _ => "aa", 0, some ⟨"10000100", "secret1"⟩,
        ConfirmOutcome.ok true, false, false, false, false⟩
      ⟨[("SSS-1", ⟨[("businessName", "Acme")], 0, 100⟩)], []⟩ "POST"
      [("payment_status", "COMPLETE"), ("merchant_id", "10000100"),
       ("custom_str1", "SSS-1"), ("signature", "bb")] =
    ⟨200, RespBody.invalidSignature,
      ⟨[("SSS-1", ⟨[("businessName", "Acme")], 0, 100⟩)], []⟩, []⟩ :=
  claim_C4_invalid_signature_rejects_before_any_store _ _ _ _ rfl (by decide)

/-- **C10.** A POST notification that passes the signature and
server-validation gates with status COMPLETE but a missing or empty
`custom_str1` is acknowledged with HTTP 200 and the `Missing submission ID`
error, with no read or write on either store. -/
theorem claim_C10_missing_submission_id_is_acknowledged_noop
    (env : Env) (w : World) (itn : Payload) (cfg : Config)
    (hcfg : env.config = some cfg)
    (hsig : validatePayFastSignature env.md5hex itn cfg.passphrase = true)
    (hval : (validatePayFastRequest itn cfg.merchantId env.confirm).valid = true)
    (hst : lookupField itn "payment_status" = some "COMPLETE")
    (hid : jsOrEmpty (lookupField itn "custom_str1") = "") :
    handler env w "POST" itn = ⟨200, RespBody.missingSubmissionId, w, []⟩ := by
  unfold handler
  rw [if_neg (by simp), hcfg]
  simp [hsig, hval, hst, hid]

/-- Witness for C10: a COMPLETE notification without `custom_str1`. -/
theorem claim_C10_witness :
    handler ⟨fun _ => "aa", 0, some ⟨"10000100", ""⟩,
        ConfirmOutcome.ok true, false, false, false, false⟩
      ⟨[("SSS-1", ⟨[("businessName", "Acme")], 0, 100⟩)], []⟩ "POST"
      [("payment_status", "COMPLETE"), ("merchant_id", "10000100"),
       ("amount_gross", "0.00"), ("signature", "aa")] =
    ⟨200, RespBody.missingSubmissionId,
      ⟨[("SSS-1", ⟨[("businessName", "Acme")], 0, 100⟩)], []⟩, []⟩ :=
  claim_C10_missing_submission_id_is_acknowledged_noop _ _ _ _ rfl
    (by decide) (by decide) (by decide) (by decide)

/-- Counterexample to **C3** as stated: a notification with
`payment_status = "PENDING"` and an invalid signature is answered with the
invalid-signature rejection, not with the success acknowledgment carrying the
no-op marker — so the acknowledgment part of the claim does not hold
"regardless of whether the signature is valid". -/
theorem claim_C3_counterexample :
    (handler ⟨fun _ => "aa", 0, some ⟨"10000100", "secret1"⟩,
        ConfirmOutcome.ok true, false, false, false, false⟩
      ⟨[], []⟩ "POST"
      [("payment_status", "PENDING"), ("merchant_id", "10000100"),
       ("signature", "bb")]).body = RespBody.invalidSignature ∧
    (handler ⟨fun _ => "aa", 0, some ⟨"10000100", "secret1"⟩,
        ConfirmOutcome.ok true, false, false, false, false⟩
      ⟨[], []⟩ "POST"
      [("payment_status", "PENDING"), ("merchant_id", "10000100"),
       ("signature", "bb")]).body ≠
      RespBody.notComplete (some "PENDING") := by
  constructor
  · decide
  · decide

/-- **C3 (amended).** A notification whose `payment_status` is not COMPLETE
never touches either store and never sends a notification — regardless of
method, configuration, signature validity or server validation; when the
method/config/signature/server-validation gates all pass, the handler
additionally acknowledges success with the no-op marker.  (With an invalid
signature the response is the invalid-signature rejection instead of the
no-op acknowledgment.) -/
theorem claim_C3_non_complete_persists_nothing
    (env : Env) (w : World) (method : String) (itn : Payload)
    (hst : lookupField itn "payment_status" ≠ some "COMPLETE") :
    (handler env w method itn).world = w ∧
    (handler env w method itn).events = [] ∧
    (∀ cfg, method = "POST" → env.config = some cfg →
      validatePayFastSignature env.md5hex itn cfg.passphrase = true →
      (validatePayFastRequest itn cfg.merchantId env.confirm).valid = true →
      handler env w method itn =
        ⟨200, RespBody.notComplete (lookupField itn "payment_status"), w, []⟩) := by
  by_cases hm : method = "POST"
  · subst hm
    rcases hc : env.config with _ | cfg
    · refine ⟨?_, ?_, ?_⟩ <;>
        simp [handler, hc]
    · rcases hsig : validatePayFastSignature env.md5hex itn cfg.passphrase with _ | _
      · refine ⟨?_, ?_, ?_⟩ <;>
          simp [handler, hc, hsig]
      · rcases hv : (validatePayFastRequest itn cfg.merchantId env.confirm).valid with _ | _
        · refine ⟨?_, ?_, ?_⟩ <;>
            simp [handler, hc, hsig, hv]
        · refine ⟨?_, ?_, ?_⟩ <;>
            simp [handler, hc, hsig, hv, hst]
  · refine ⟨?_, ?_, ?_⟩ <;>
      simp [handler, hm]

/-- Witness for the amended C3: a PENDING notification with a valid
signature is acknowledged with the no-op marker and no effect. -/
theorem claim_C3_witness :
    (handler ⟨fun _ => "aa", 0, some ⟨"10000100", ""⟩,
        ConfirmOutcome.ok true, false, false, false, false⟩
      ⟨[("SSS-1", ⟨[("businessName", "Acme")], 0, 100⟩)], []⟩ "POST"
      [("payment_status", "PENDING"), ("merchant_id", "10000100"),
       ("custom_str1", "SSS-1"), ("signature", "aa")]).world =
      ⟨[("SSS-1", ⟨[("businessName", "Acme")], 0, 100⟩)], []⟩ ∧
    (handler ⟨fun _ => "aa", 0, some ⟨"10000100", ""⟩,
        ConfirmOutcome.ok true, false, false, false, false⟩
      ⟨[("SSS-1", ⟨[("businessName", "Acme")], 0, 100⟩)], []⟩ "POST"
      [("payment_status", "PENDING"), ("merchant_id", "10000100"),
       ("custom_str1", "SSS-1"), ("signature", "aa")]).events = [] ∧
    (∀ cfg : Config, "POST" = "POST" →
      some (⟨"10000100", ""⟩ : Config) = some cfg →
      validatePayFastSignature (fun _ => "aa")
        [("payment_status", "PENDING"), ("merchant_id", "10000100"),
         ("custom_str1", "SSS-1"), ("signature", "aa")] cfg.passphrase = true →
      (validatePayFastRequest
        [("payment_status", "PENDING"), ("merchant_id", "10000100"),
         ("custom_str1", "SSS-1"), ("signature", "aa")] cfg.merchantId
        (ConfirmOutcome.ok true)).valid = true →
      handler ⟨fun _ => "aa", 0, some ⟨"10000100", ""⟩,
          ConfirmOutcome.ok true, false, false, false, false⟩
        ⟨[("SSS-1", ⟨[("businessName", "Acme")], 0, 100⟩)], []⟩ "POST"
        [("payment_status", "PENDING"), ("merchant_id", "10000100"),
         ("custom_str1", "SSS-1"), ("signature", "aa")] =
        ⟨200, RespBody.notComplete (some "PENDING"),
          ⟨[("SSS-1", ⟨[("businessName", "Acme")], 0, 100⟩)], []⟩, []⟩) := by
  have h := claim_C3_non_complete_persists_nothing
    ⟨fun _ => "aa", 0, some ⟨"10000100", ""⟩,
      ConfirmOutcome.ok true, false, false, false, false⟩
    ⟨[("SSS-1", ⟨[("businessName", "Acme")], 0, 100⟩)], []⟩ "POST"
    [("payment_status", "PENDING"), ("merchant_id", "10000100"),
     ("custom_str1", "SSS-1"), ("signature", "aa")] (by decide)
  exact h

/-- A thrown confirmation call is swallowed: validation behaves exactly as if
the endpoint had confirmed. -/
theorem validatePayFastRequest_thrown_eq (data : Payload) (mid : String) :
    validatePayFastRequest data mid ConfirmOutcome.thrown =
      validatePayFastRequest data mid (ConfirmOutcome.ok true) := by
  unfold validatePayFastRequest
  by_cases h1 : lookupField data "merchant_id" ≠ some mid
  · simp [h1]
  · by_cases h2 : amountGrossNum data = JsNum.nan <;> simp [h1, h2]

/-- Counterexample to **C5** as stated: when the validation endpoint responds
with a body other than the success token (the confirmation call *resolves*
false), the handler rejects the notification instead of proceeding — shown
solely by flipping the confirmation outcome on an otherwise fully valid
COMPLETE notification. -/
theorem claim_C5_counterexample :
    (handler ⟨fun _ => "aa", 0, some ⟨"10000100", ""⟩,
        ConfirmOutcome.ok false, false, false, false, false⟩
      ⟨[("SSS-1", ⟨[("businessName", "Acme")], 0, 100⟩)], []⟩ "POST"
      [("payment_status", "COMPLETE"), ("merchant_id", "10000100"),
       ("amount_gross", "0.00"), ("custom_str1", "SSS-1"),
       ("signature", "aa")]) =
      ⟨200, RespBody.validationFailed "PayFast server validation failed",
        ⟨[("SSS-1", ⟨[("businessName", "Acme")], 0, 100⟩)], []⟩, []⟩ ∧
    (handler ⟨fun _ => "aa", 0, some ⟨"10000100", ""⟩,
        ConfirmOutcome.ok true, false, false, false, false⟩
      ⟨[("SSS-1", ⟨[("businessName", "Acme")], 0, 100⟩)], []⟩ "POST"
      [("payment_status", "COMPLETE"), ("merchant_id", "10000100"),
       ("amount_gross", "0.00"), ("custom_str1", "SSS-1"),
       ("signature", "aa")]).body =
      RespBody.processed "SSS-1" true true false := by
  constructor
  · decide
  · decide

/-- **C5 (amended).** The orchestrator never hard-fails solely because the
confirmation *call* fails (network error or timeout, i.e. the promise
rejects): with a thrown confirmation, every run of the handler is identical
to the run in which the endpoint confirmed, so processing proceeds on the
signature check alone.  (A response body other than the success token,
however, resolves to an invalid result and is rejected — see the
counterexample.) -/
theorem claim_C5_thrown_confirmation_never_hard_fails
    (md5hex : String → String) (now : Int) (config : Option Config)
    (dbF delF oF cF : Bool) (w : World) (method : String) (itn : Payload) :
    handler ⟨md5hex, now, config, ConfirmOutcome.thrown, dbF, delF, oF, cF⟩
        w method itn =
      handler ⟨md5hex, now, config, ConfirmOutcome.ok true, dbF, delF, oF, cF⟩
        w method itn := by
  unfold handler
  simp only [validatePayFastRequest_thrown_eq]

/-- **C6.** Merchant-id mismatch and an amount that parses to NaN are hard
rejects of `validatePayFastRequest` (and the handler answers with the
validation error, touching nothing); a thrown confirmation call (unreachable
endpoint or timeout) alone never invalidates the result. -/
theorem claim_C6_hard_rejects_vs_advisory_confirmation
    (data : Payload) (mid : String) :
    (∀ c, lookupField data "merchant_id" ≠ some mid →
      (validatePayFastRequest data mid c).valid = false) ∧
    (∀ c, amountGrossNum data = JsNum.nan →
      (validatePayFastRequest data mid c).valid = false) ∧
    (lookupField data "merchant_id" = some mid →
      amountGrossNum data ≠ JsNum.nan →
      (validatePayFastRequest data mid ConfirmOutcome.thrown).valid = true) ∧
    (∀ (env : Env) (w : World) (cfg : Config), env.config = some cfg →
      validatePayFastSignature env.md5hex data cfg.passphrase = true →
      (validatePayFastRequest data cfg.merchantId env.confirm).valid = false →
      handler env w "POST" data =
        ⟨200, RespBody.validationFailed (jsOrEmpty
          (validatePayFastRequest data cfg.merchantId env.confirm).error),
          w, []⟩) := by
  refine ⟨fun c h => ?_, fun c h => ?_, fun h1 h2 => ?_,
    fun env w cfg hcfg hsig hval => ?_⟩
  · simp [validatePayFastRequest, h]
  · by_cases h1 : lookupField data "merchant_id" ≠ some mid <;>
      simp [validatePayFastRequest, h1, h]
  · simp [validatePayFastRequest, h1, h2]
  · unfold handler
    rw [if_neg (by simp), hcfg]
    simp [hsig, hval]

/-- Witness for C6 at concrete payloads: a wrong merchant id, a
non-numeric amount, a thrown confirmation on an otherwise valid payload, and
the handler's rejection on a failed validation. -/
theorem claim_C6_witness :
    (validatePayFastRequest [("merchant_id", "999")] "10000100"
      (ConfirmOutcome.ok true)).valid = false ∧
    (validatePayFastRequest [("merchant_id", "10000100"),
      ("amount_gross", "abc")] "10000100" (ConfirmOutcome.ok true)).valid = false ∧
    (validatePayFastRequest [("merchant_id", "10000100"),
      ("amount_gross", "499.99")] "10000100" ConfirmOutcome.thrown).valid = true ∧
    handler ⟨fun _ => "aa", 0, some ⟨"10000100", ""⟩,
        ConfirmOutcome.ok true, false, false, false, false⟩
      ⟨[], []⟩ "POST" [("merchant_id", "999"), ("signature", "aa")] =
      ⟨200, RespBody.validationFailed
        "Merchant ID mismatch: expected 10000100, got 999", ⟨[], []⟩, []⟩ := by
  refine ⟨(claim_C6_hard_rejects_vs_advisory_confirmation
      [("merchant_id", "999")] "10000100").1 _ (by decide),
    (claim_C6_hard_rejects_vs_advisory_confirmation
      [("merchant_id", "10000100"), ("amount_gross", "abc")] "10000100").2.1 _
      (by decide),
    (claim_C6_hard_rejects_vs_advisory_confirmation
      [("merchant_id", "10000100"), ("amount_gross", "499.99")]
      "10000100").2.2.1 (by decide) (by decide), ?_⟩
  have h := (claim_C6_hard_rejects_vs_advisory_confirmation
      [("merchant_id", "999"), ("signature", "aa")] "10000100").2.2.2
    ⟨fun _ => "aa", 0, some ⟨"10000100", ""⟩,
      ConfirmOutcome.ok true, false, false, false, false⟩
    ⟨[], []⟩ ⟨"10000100", ""⟩ rfl (by decide) (by decide)
  exact h

theorem find?_append_single_self (paid : List (String × PaidRow))
    (id : String) (r : PaidRow)
    (h : paid.find? (fun p => p.1 = id) = none) :
    (paid ++ [(id, r)]).find? (fun p => p.1 = id) = some (id, r) := by
  rw [find?_append_of_none h]
  simp [List.find?]

theorem filter_append_single_self (paid : List (String × PaidRow))
    (id : String) (r : PaidRow)
    (h : paid.find? (fun p => p.1 = id) = none) :
    (paid ++ [(id, r)]).filter (fun p => p.1 = id) = [(id, r)] := by
  rw [List.filter_append, filter_eq_nil_of_find?_none h]
  simp [List.filter]

/-- **C7.** A valid COMPLETE notification whose submission id has no matching
pending record still creates a PaidSubmission: the handler answers with the
fallback acknowledgment and inserts a row whose form data is the minimal
synthesis of the notification's name, email and business-name custom fields,
tagged with the explicit incomplete-data marker. -/
theorem claim_C7_recovery_branch_never_drops_payment
    (env : Env) (w : World) (itn : Payload) (cfg : Config) (id : String)
    (hcfg : env.config = some cfg)
    (hsig : validatePayFastSignature env.md5hex itn cfg.passphrase = true)
    (hval : (validatePayFastRequest itn cfg.merchantId env.confirm).valid = true)
    (hst : lookupField itn "payment_status" = some "COMPLETE")
    (hid : lookupField itn "custom_str1" = some id)
    (hne : id ≠ "")
    (hdup : submissionExists w id = false)
    (hpend : getPendingFormData env.now w id false = none)
    (hdb : env.dbCreateFails = false) :
    ∃ r, handler env w "POST" itn =
        ⟨200, RespBody.fallbackProcessed id,
          ⟨w.pending, w.paid ++ [(id, r)]⟩,
          [Ev.checkExists id, Ev.getPending id, Ev.createPaid id]⟩ ∧
      lookupPaid (handler env w "POST" itn).world id = some r ∧
      r.payment_status = "COMPLETE" ∧
      r.payment_data = itn ∧
      r.form_data = fallbackFormData id itn ∧
      lookupField r.form_data "_note" =
        some "INCOMPLETE DATA - Original form data not found in pending table" ∧
      lookupField r.form_data "submissionId" = some id ∧
      lookupField r.form_data "businessName" =
        some (jsOrEmpty (lookupField itn "custom_str2")) ∧
      lookupField r.form_data "ownerFirstName" =
        some (jsOrEmpty (lookupField itn "name_first")) ∧
      lookupField r.form_data "ownerLastName" =
        some (jsOrEmpty (lookupField itn "name_last")) ∧
      lookupField r.form_data "businessEmail" =
        some (jsOrEmpty (lookupField itn "email_address")) := by
  have hlook : lookupPaid w id = none := by
    rcases h : lookupPaid w id with _ | r
    · rfl
    · exfalso
      unfold submissionExists at hdup
      rw [if_neg hne, h] at hdup
      simp at hdup
  have hfind : w.paid.find? (fun p => p.1 = id) = none :=
    Option.map_eq_none'.mp hlook
  have h1 : handler env w "POST" itn =
      ⟨200, RespBody.fallbackProcessed id,
        ⟨w.pending, w.paid ++
          [(id, mkInsertRow env.now (fallbackFormData id itn) itn)]⟩,
        [Ev.checkExists id, Ev.getPending id, Ev.createPaid id]⟩ := by
    unfold handler
    rw [if_neg (by simp), hcfg]
    simp [hsig, hval, hst, hid, jsOrEmpty, hne, hdup, hpend, hdb,
      createPaidSubmission, hlook]
  refine ⟨mkInsertRow env.now (fallbackFormData id itn) itn, h1, ?_, rfl, rfl,
    rfl, ?_, ?_, ?_, ?_, ?_, ?_⟩
  · rw [h1]
    unfold lookupPaid
    rw [find?_append_single_self _ _ _ hfind]
    rfl
  all_goals simp [mkInsertRow, fallbackFormData, lookupField, List.find?]

/-- Witness for C7: a COMPLETE notification for an id with an empty pending
store. -/
theorem claim_C7_witness :
    ∃ r, handler ⟨fun _ => "aa", 0, some ⟨"10000100", ""⟩,
          ConfirmOutcome.ok true, false, false, false, false⟩
        ⟨[], []⟩ "POST"
        [("pf_payment_id", "77"), ("payment_status", "COMPLETE"),
         ("merchant_id", "10000100"), ("amount_gross", "499.99"),
         ("name_first", "Jo"), ("name_last", "Ann"),
         ("email_address", "jo@x.com"), ("custom_str1", "SSS-1"),
         ("custom_str2", "Acme"), ("signature", "aa")] =
        ⟨200, RespBody.fallbackProcessed "SSS-1", ⟨[], [("SSS-1", r)]⟩,
          [Ev.checkExists "SSS-1", Ev.getPending "SSS-1",
           Ev.createPaid "SSS-1"]⟩ ∧
      lookupPaid (handler ⟨fun _ => "aa", 0, some ⟨"10000100", ""⟩,
          ConfirmOutcome.ok true, false, false, false, false⟩
        ⟨[], []⟩ "POST"
        [("pf_payment_id", "77"), ("payment_status", "COMPLETE"),
         ("merchant_id", "10000100"), ("amount_gross", "499.99"),
         ("name_first", "Jo"), ("name_last", "Ann"),
         ("email_address", "jo@x.com"), ("custom_str1", "SSS-1"),
         ("custom_str2", "Acme"), ("signature", "aa")]).world "SSS-1" =
        some r ∧
      r.payment_status = "COMPLETE" ∧
      r.payment_data =
        [("pf_payment_id", "77"), ("payment_status", "COMPLETE"),
         ("merchant_id", "10000100"), ("amount_gross", "499.99"),
         ("name_first", "Jo"), ("name_last", "Ann"),
         ("email_address", "jo@x.com"), ("custom_str1", "SSS-1"),
         ("custom_str2", "Acme"), ("signature", "aa")] ∧
      r.form_data = fallbackFormData "SSS-1"
        [("pf_payment_id", "77"), ("payment_status", "COMPLETE"),
         ("merchant_id", "10000100"), ("amount_gross", "499.99"),
         ("name_first", "Jo"), ("name_last", "Ann"),
         ("email_address", "jo@x.com"), ("custom_str1", "SSS-1"),
         ("custom_str2", "Acme"), ("signature", "aa")] ∧
      lookupField r.form_data "_note" =
        some "INCOMPLETE DATA - Original form data not found in pending table" ∧
      lookupField r.form_data "submissionId" = some "SSS-1" ∧
      lookupField r.form_data "businessName" = some (jsOrEmpty (some "Acme")) ∧
      lookupField r.form_data "ownerFirstName" = some (jsOrEmpty (some "Jo")) ∧
      lookupField r.form_data "ownerLastName" = some (jsOrEmpty (some "Ann")) ∧
      lookupField r.form_data "businessEmail" =
        some (jsOrEmpty (some "jo@x.com")) := by
  have h := claim_C7_recovery_branch_never_drops_payment
    ⟨fun _ => "aa", 0, some ⟨"10000100", ""⟩,
      ConfirmOutcome.ok true, false, false, false, false⟩
    ⟨[], []⟩
    [("pf_payment_id", "77"), ("payment_status", "COMPLETE"),
     ("merchant_id", "10000100"), ("amount_gross", "499.99"),
     ("name_first", "Jo"), ("name_last", "Ann"),
     ("email_address", "jo@x.com"), ("custom_str1", "SSS-1"),
     ("custom_str2", "Acme"), ("signature", "aa")]
    ⟨"10000100", ""⟩ "SSS-1" rfl (by decide) (by decide) (by decide)
    (by decide) (by decide) (by decide) (by decide) rfl
  exact h

/-- **C2.** Idempotency.  (a) If a paid row already exists for the submission
id in `custom_str1`, a further valid COMPLETE notification with that id is
acknowledged as a duplicate with no further processing: the stores are left
untouched and the only traced operation is the existence check.  (b) Handling
an identical valid COMPLETE notification twice from a state without the row
leaves exactly one paid row for that id, and the second call is the duplicate
acknowledgment performing no additional writes. -/
theorem claim_C2_duplicate_notifications_are_short_circuited
    (env : Env) (w : World) (itn : Payload) (cfg : Config) (id : String)
    (hcfg : env.config = some cfg)
    (hsig : validatePayFastSignature env.md5hex itn cfg.passphrase = true)
    (hval : (validatePayFastRequest itn cfg.merchantId env.confirm).valid = true)
    (hst : lookupField itn "payment_status" = some "COMPLETE")
    (hid : lookupField itn "custom_str1" = some id)
    (hne : id ≠ "") :
    (submissionExists w id = true →
      handler env w "POST" itn =
        ⟨200, RespBody.duplicate id, w, [Ev.checkExists id]⟩) ∧
    (env.dbCreateFails = false → submissionExists w id = false →
      countPaid (handler env w "POST" itn).world id = 1 ∧
      handler env (handler env w "POST" itn).world "POST" itn =
        ⟨200, RespBody.duplicate id, (handler env w "POST" itn).world,
          [Ev.checkExists id]⟩) := by
  have dup : ∀ w', submissionExists w' id = true →
      handler env w' "POST" itn =
        ⟨200, RespBody.duplicate id, w', [Ev.checkExists id]⟩ := by
    intro w' hex
    unfold handler
    rw [if_neg (by simp), hcfg]
    simp [hsig, hval, hst, hid, jsOrEmpty, hne, hex]
  refine ⟨dup w, fun hdb hnem => ?_⟩
  have hlook : lookupPaid w id = none := by
    rcases h : lookupPaid w id with _ | r
    · rfl
    · exfalso
      unfold submissionExists at hnem
      rw [if_neg hne, h] at hnem
      simp at hnem
  have hfind : w.paid.find? (fun p => p.1 = id) = none :=
    Option.map_eq_none'.mp hlook
  -- both the found and the recovery branch append exactly one row for `id`
  have hpaid : ∃ row, (handler env w "POST" itn).world.paid =
      w.paid ++ [(id, row)] := by
    rcases hp : getPendingFormData env.now w id false with _ | rec
    · refine ⟨mkInsertRow env.now (fallbackFormData id itn) itn, ?_⟩
      unfold handler
      rw [if_neg (by simp), hcfg]
      simp [hsig, hval, hst, hid, jsOrEmpty, hne, hnem, hp, hdb,
        createPaidSubmission, hlook]
    · refine ⟨mkInsertRow env.now rec.form_data itn, ?_⟩
      unfold handler
      rw [if_neg (by simp), hcfg]
      simp only [hsig, hval, hst, hid, jsOrEmpty, hne, hnem, hp, hdb,
        createPaidSubmission, hlook]
      simp [hsig, hval, hst, hid, jsOrEmpty, hne, hnem, hp, hdb,
        createPaidSubmission, hlook]
      cases env.deleteFails <;>
        simp [deletePendingFormData, hne]
  obtain ⟨row, hrow⟩ := hpaid
  have hex2 : submissionExists (handler env w "POST" itn).world id = true := by
    unfold submissionExists lookupPaid
    rw [if_neg hne, hrow, find?_append_single_self _ _ _ hfind]
    rfl
  refine ⟨?_, dup _ hex2⟩
  show ((handler env w "POST" itn).world.paid.filter
    (fun p => p.1 = id)).length = 1
  rw [hrow, filter_append_single_self _ _ _ hfind]
  rfl

/-- Witness for C2: the concrete end-to-end double delivery of scenario 2 —
first call promotes, second call is acknowledged as a duplicate. -/
theorem claim_C2_witness :
    (submissionExists
        (⟨[("SSS-1", ⟨[("businessName", "Acme"),
            ("businessEmail", "jo@x.com")], 0, 100⟩)], []⟩ : World)
        "SSS-1" = true →
      handler ⟨fun _ => "aa", 50, some ⟨"10000100", ""⟩,
          ConfirmOutcome.ok true, false, false, false, false⟩
        ⟨[("SSS-1", ⟨[("businessName", "Acme"),
            ("businessEmail", "jo@x.com")], 0, 100⟩)], []⟩ "POST"
        [("payment_status", "COMPLETE"), ("merchant_id", "10000100"),
         ("amount_gross", "499.99"), ("custom_str1", "SSS-1"),
         ("signature", "aa")] =
        ⟨200, RespBody.duplicate "SSS-1",
          ⟨[("SSS-1", ⟨[("businessName", "Acme"),
              ("businessEmail", "jo@x.com")], 0, 100⟩)], []⟩,
          [Ev.checkExists "SSS-1"]⟩) ∧
    (false = false →
      submissionExists
        (⟨[("SSS-1", ⟨[("businessName", "Acme"),
            ("businessEmail", "jo@x.com")], 0, 100⟩)], []⟩ : World)
        "SSS-1" = false →
      countPaid (handler ⟨fun _ => "aa", 50, some ⟨"10000100", ""⟩,
          ConfirmOutcome.ok true, false, false, false, false⟩
        ⟨[("SSS-1", ⟨[("businessName", "Acme"),
            ("businessEmail", "jo@x.com")], 0, 100⟩)], []⟩ "POST"
        [("payment_status", "COMPLETE"), ("merchant_id", "10000100"),
         ("amount_gross", "499.99"), ("custom_str1", "SSS-1"),
         ("signature", "aa")]).world "SSS-1" = 1 ∧
      handler ⟨fun _ => "aa", 50, some ⟨"10000100", ""⟩,
          ConfirmOutcome.ok true, false, false, false, false⟩
        (handler ⟨fun _ => "aa", 50, some ⟨"10000100", ""⟩,
            ConfirmOutcome.ok true, false, false, false, false⟩
          ⟨[("SSS-1", ⟨[("businessName", "Acme"),
              ("businessEmail", "jo@x.com")], 0, 100⟩)], []⟩ "POST"
          [("payment_status", "COMPLETE"), ("merchant_id", "10000100"),
           ("amount_gross", "499.99"), ("custom_str1", "SSS-1"),
           ("signature", "aa")]).world "POST"
        [("payment_status", "COMPLETE"), ("merchant_id", "10000100"),
         ("amount_gross", "499.99"), ("custom_str1", "SSS-1"),
         ("signature", "aa")] =
        ⟨200, RespBody.duplicate "SSS-1",
          (handler ⟨fun _ => "aa", 50, some ⟨"10000100", ""⟩,
              ConfirmOutcome.ok true, false, false, false, false⟩
            ⟨[("SSS-1", ⟨[("businessName", "Acme"),
                ("businessEmail", "jo@x.com")], 0, 100⟩)], []⟩ "POST"
            [("payment_status", "COMPLETE"), ("merchant_id", "10000100"),
             ("amount_gross", "499.99"), ("custom_str1", "SSS-1"),
             ("signature", "aa")]).world,
          [Ev.checkExists "SSS-1"]⟩) :=
  claim_C2_duplicate_notifications_are_short_circuited
    ⟨fun _ => "aa", 50, some ⟨"10000100", ""⟩,
      ConfirmOutcome.ok true, false, false, false, false⟩
    ⟨[("SSS-1", ⟨[("businessName", "Acme"),
        ("businessEmail", "jo@x.com")], 0, 100⟩)], []⟩
    [("payment_status", "COMPLETE"), ("merchant_id", "10000100"),
     ("amount_gross", "499.99"), ("custom_str1", "SSS-1"),
     ("signature", "aa")]
    ⟨"10000100", ""⟩ "SSS-1" rfl (by decide) (by decide) (by decide)
    (by decide) (by decide)

end SSS
